import Mathlib

/-!
Verification of the clawback repository analysis pipelines against their
natural-language specification.

The development shallowly embeds the statistical engines of the four
pipeline scripts:

* pipelines/nl-financiele-instrumenten-subsidy-trends/analyze.py
  (series aggregation, growth z-score anomalies, rolling-baseline deviations),
* pipelines/nl-tenderned-threshold-clustering/analyze.py
  (the McCrary-style density test),
* pipelines/nl-kvk-insolvency-cross-ref/analyze.py
  (rapid-insolvency detection and phoenix pair clustering).

Monetary amounts and all derived statistics are embedded as exact rationals,
years as integers.  Values that the Python code leaves as float NaN
(undefined growth, undefined baselines, undefined test statistics) are
embedded as Option.none.  Square roots are irrational, so z-scores are
carried in squared form: a record stores the square of its z-score together
with the variance that the code divides by; the flag condition
abs z at least T is embedded as the equivalent (g - m)^2 at least T^2 * var.
CSV output formatting (rounding to 1 or 2 decimals, int truncation,
percentage scaling) is display-only and is not embedded; records carry the
exact values that the rounded CSV fields are derived from.
-/

namespace SubsidyTrends

/-- One series group after aggregation: the (year, amount_k) rows belonging to
a single (budget_name, regeling, instrument) series key.  The aggregation step
guarantees at most one row per year inside a group. -/
abbrev Obs := List (Int × ℚ)

/-- Config constant GROWTH_Z_THRESHOLD = 2.0 from analyze.py. -/
def GROWTH_Z_THRESHOLD : ℚ := 2

/-- Config constant BASELINE_DEVIATION_PCT = 0.25 from analyze.py. -/
def BASELINE_DEVIATION_PCT : ℚ := 1/4

/-- Config constant ROLLING_WINDOW = 3 from analyze.py. -/
def ROLLING_WINDOW : ℕ := 3

/-- Config constant MIN_YEARS = 4 from analyze.py. -/
def MIN_YEARS : ℕ := 4

/-- Config constant MIN_BASELINE_K = 1000 from analyze.py. -/
def MIN_BASELINE_K : ℚ := 1000

/-- Number of distinct observed years of the group:
grp["year"].nunique(). -/
def nDistinctYears (obs : Obs) : ℕ := ((obs.map Prod.fst).dedup).length

/-- Smallest observed year, yearly.index.min(); 0 for an empty group (the
empty case is never reached behind the MIN_YEARS guard). -/
def minYear (obs : Obs) : ℤ :=
  match obs.map Prod.fst with
  | [] => 0
  | y :: ys => ys.foldl min y

/-- Largest observed year, yearly.index.max(); 0 for an empty group. -/
def maxYear (obs : Obs) : ℤ :=
  match obs.map Prod.fst with
  | [] => 0
  | y :: ys => ys.foldl max y

/-- The zero-filled reindexed series:
yearly.reindex(range(min, max + 1), fill_value=0).
Summing the (unique) matching row reproduces the observed amount and yields 0
for unobserved years, inside or outside the range. -/
def amt (obs : Obs) (y : ℤ) : ℚ :=
  ((obs.filter (fun p => p.1 = y)).map Prod.snd).sum

/-- The contiguous reindexed year range [minYear, maxYear]. -/
def yearRange (obs : Obs) : List ℤ :=
  (List.range ((maxYear obs - minYear obs).toNat + 1)).map
    (fun (i : ℕ) => minYear obs + (i : ℤ))

/-- Year-over-year growth of the reindexed series at year y:
pct_change, with growth forced to NaN where the previous amount is 0
(growth[yearly.shift(1) == 0] = np.nan), and NaN at the first year of the
range (pct_change has no predecessor there). -/
def growthAt (obs : Obs) (y : ℤ) : Option ℚ :=
  if y ≤ minYear obs ∨ maxYear obs < y then none
  else if amt obs (y - 1) = 0 then none
  else some ((amt obs y - amt obs (y - 1)) / amt obs (y - 1))

/-- All defined (non-NaN) growth values of the series, in year order. -/
def definedGrowths (obs : Obs) : List ℚ :=
  (yearRange obs).filterMap (growthAt obs)

/-- mean_g = growth.mean(): pandas mean skips NaN entries and is NaN when
no entry is defined. -/
def meanGrowth (obs : Obs) : Option ℚ :=
  let g := definedGrowths obs
  if g.length = 0 then none else some (g.sum / (g.length : ℚ))

/-- std_g = growth.std(): the pandas default is the sample standard deviation
(ddof = 1), NaN when fewer than 2 entries are defined.  Stored squared (the
sample variance) to remain rational. -/
def sampleVarGrowth (obs : Obs) : Option ℚ :=
  let g := definedGrowths obs
  match meanGrowth obs with
  | none => none
  | some m =>
      if g.length < 2 then none
      else some (((g.map (fun x => (x - m) ^ 2)).sum) / ((g.length - 1 : ℕ) : ℚ))

/-- Population variance of the defined growth values (ddof = 0).  This is NOT
what the code computes; it is the statistic named by the specification
sentence (population standard deviation, squared here), defined to compare
the two readings. -/
def popVarGrowth (obs : Obs) : Option ℚ :=
  let g := definedGrowths obs
  match meanGrowth obs with
  | none => none
  | some m => some (((g.map (fun x => (x - m) ^ 2)).sum) / (g.length : ℚ))

/-- Output record of detect_growth_anomalies.  The CSV additionally rounds:
yoy_growth_pct = round(100 * yoy_growth, 1), z_score = round(z, 2),
series_mean_growth_pct = round(100 * series_mean_growth, 1),
series_std_growth_pct = round(100 * sqrt series_var_growth, 1); those are
display forms of the exact fields kept here.  z_sq is the square of the
z-score and z_nonneg its sign; series_var_growth is the square of the
std the code divides by (pandas .std(), ddof = 1). -/
structure GrowthAnomaly where
  year : ℤ
  amount_k : ℚ
  prev_amount_k : ℚ
  yoy_growth : ℚ
  abs_change_k : ℚ
  z_sq : ℚ
  z_nonneg : Bool
  series_mean_growth : ℚ
  series_var_growth : ℚ
  n_years : ℕ
deriving DecidableEq

/-- detect_growth_anomalies, per series group.  The source iterates this body
over agg.groupby("series_key"); each group is processed independently, so the
per-series function carries the whole contract.  The flag test
abs((g - m) / std) at least GROWTH_Z_THRESHOLD is embedded in the equivalent
squared form GROWTH_Z_THRESHOLD^2 * var at most (g - m)^2, valid because the
std is positive on this branch (var is nonzero and a sum of squares).
The final sort_values("z_score", key=abs, ascending=False) is a mergeSort on
descending z squared; the source sorts on the 2-decimal-rounded z, which can
permute near-ties but never changes membership. -/
def detectGrowthAnomalies (obs : Obs) : List GrowthAnomaly :=
  if nDistinctYears obs < MIN_YEARS then []
  else
    match meanGrowth obs, sampleVarGrowth obs with
    | some m, some v =>
        if v = 0 then []
        else
          ((yearRange obs).filterMap (fun y =>
            match growthAt obs y with
            | none => none
            | some g =>
                if GROWTH_Z_THRESHOLD ^ 2 * v ≤ (g - m) ^ 2 then
                  some { year := y
                         amount_k := amt obs y
                         prev_amount_k := amt obs (y - 1)
                         yoy_growth := g
                         abs_change_k := amt obs y - amt obs (y - 1)
                         z_sq := (g - m) ^ 2 / v
                         z_nonneg := decide (m ≤ g)
                         series_mean_growth := m
                         series_var_growth := v
                         n_years := (yearRange obs).length }
                else none)).mergeSort (fun a b => decide (b.z_sq ≤ a.z_sq))
    | _, _ => []

/-- The variant that the specification describes, differing from the source
only in using the population standard deviation (ddof = 0) as
series_std_growth.  Used to separate the two readings of claim C1. -/
def detectGrowthAnomaliesPopStd (obs : Obs) : List GrowthAnomaly :=
  if nDistinctYears obs < MIN_YEARS then []
  else
    match meanGrowth obs, popVarGrowth obs with
    | some m, some v =>
        if v = 0 then []
        else
          ((yearRange obs).filterMap (fun y =>
            match growthAt obs y with
            | none => none
            | some g =>
                if GROWTH_Z_THRESHOLD ^ 2 * v ≤ (g - m) ^ 2 then
                  some { year := y
                         amount_k := amt obs y
                         prev_amount_k := amt obs (y - 1)
                         yoy_growth := g
                         abs_change_k := amt obs y - amt obs (y - 1)
                         z_sq := (g - m) ^ 2 / v
                         z_nonneg := decide (m ≤ g)
                         series_mean_growth := m
                         series_var_growth := v
                         n_years := (yearRange obs).length }
                else none)).mergeSort (fun a b => decide (b.z_sq ≤ a.z_sq))
    | _, _ => []

/-- yearly.shift(1): the previous-year amount, NaN at the first position of
the reindexed range. -/
def shiftedAmt (obs : Obs) (y : ℤ) : Option ℚ :=
  if y = minYear obs then none else some (amt obs (y - 1))

/-- The non-NaN values inside the trailing rolling window of width
ROLLING_WINDOW ending at year y of the shifted series:
yearly.shift(1).rolling(window=ROLLING_WINDOW, min_periods=2) at position y.
The window covers the shifted entries at years y, y-1, y-2, clipped at the
start of the range. -/
def rollWindowVals (obs : Obs) (y : ℤ) : List ℚ :=
  ((List.range (min ((y - minYear obs).toNat + 1) ROLLING_WINDOW)).map
    (fun (k : ℕ) => shiftedAmt obs (y - (k : ℤ)))).filterMap id

/-- The rolling-mean baseline at year y: pandas computes the mean of the
non-NaN window entries and requires min_periods = 2 of them, else NaN. -/
def baselineAt (obs : Obs) (y : ℤ) : Option ℚ :=
  let w := rollWindowVals obs y
  if 2 ≤ w.length then some (w.sum / (w.length : ℚ)) else none

/-- Deviation direction of a flagged year. -/
inductive Direction where
  | over
  | under
deriving DecidableEq

/-- Output record of detect_baseline_deviations.  The CSV rounds
deviation_pct = round(100 * deviation, 1) and truncates amount_k and
baseline_k to int; the exact values are kept here. -/
structure BaselineDeviation where
  year : ℤ
  amount_k : ℚ
  baseline_k : ℚ
  deviation : ℚ
  direction : Direction
  n_years : ℕ
deriving DecidableEq

/-- detect_baseline_deviations, per series group (the source maps this body
over agg.groupby("series_key")).  Years with NaN or zero baseline are
skipped, baselines of magnitude below MIN_BASELINE_K are skipped, and a year
is flagged when the relative deviation exceeds BASELINE_DEVIATION_PCT in
absolute value.  The final sort_values("deviation_pct", key=abs,
ascending=False) is a mergeSort on descending absolute deviation (the source
sorts the 1-decimal-rounded percentage; membership is unaffected). -/
def detectBaselineDeviations (obs : Obs) : List BaselineDeviation :=
  if nDistinctYears obs < MIN_YEARS then []
  else
    ((yearRange obs).filterMap (fun y =>
      match baselineAt obs y with
      | none => none
      | some b =>
          if b = 0 then none
          else if |b| < MIN_BASELINE_K then none
          else
            let dev := (amt obs y - b) / b
            if BASELINE_DEVIATION_PCT < |dev| then
              some { year := y
                     amount_k := amt obs y
                     baseline_k := b
                     deviation := dev
                     direction := if 0 < dev then Direction.over else Direction.under
                     n_years := (yearRange obs).length }
            else none)).mergeSort (fun a b => decide (|b.deviation| ≤ |a.deviation|))

/-- Example series of claim C3: amounts (2017, 100), (2018, 110),
(2019, 500), (2020, 520). -/
def exGrowth : Obs := [(2017, 100), (2018, 110), (2019, 500), (2020, 520)]

/-- Example series of claim C7: amounts (2018, 1000), (2019, 1100),
(2020, 1050), (2021, 3000). -/
def exBaseline : Obs := [(2018, 1000), (2019, 1100), (2020, 1050), (2021, 3000)]

/-- Example series of claim C6: amounts (2020, 0), (2021, 100), (2022, 150). -/
def exZeroBase : Obs := [(2020, 0), (2021, 100), (2022, 150)]

/-- Counterexample series for claim C1: seven years with a single jump.  Its
six defined growth values are 0, 0, 0, 0, 0, 1; the sample variance is 1/6
while the population variance is 5/36, so the z-score of the final year is
5 / sqrt 6 (about 2.04, flagged) under the sample reading but
sqrt 5 (about 2.24) under the population reading, and the emitted record
pins down which one the code uses. -/
def exPopStd : Obs :=
  [(2000, 100), (2001, 100), (2002, 100), (2003, 100), (2004, 100),
   (2005, 100), (2006, 200)]

/-- A short series (2 distinct years) for the claim C4 witness. -/
def exShort : Obs := [(2020, 5), (2021, 6)]

/-- The single record that detect_growth_anomalies emits on exPopStd. -/
def exPopStdRecord : GrowthAnomaly :=
  { year := 2006, amount_k := 200, prev_amount_k := 100, yoy_growth := 1,
    abs_change_k := 100, z_sq := 25/6, z_nonneg := true,
    series_mean_growth := 1/6, series_var_growth := 1/6, n_years := 7 }

/-- The single record that detect_baseline_deviations emits on exBaseline. -/
def exBaselineRecord : BaselineDeviation :=
  { year := 2021, amount_k := 3000, baseline_k := 1050, deviation := 13/7,
    direction := Direction.over, n_years := 4 }

end SubsidyTrends

namespace SubsidyTrends

/-- One raw input row as consumed by aggregate: the three grouping columns
(nullable in the source; groupby with dropna=False keeps null keys, modeled
by Option String), the budget year and the amount. -/
structure Row where
  budget_name : Option String
  regeling : Option String
  instrument : Option String
  year : ℤ
  amount_k : ℚ
deriving DecidableEq

/-- The composite series key (budget_name, regeling, instrument). -/
abbrev SeriesKey := Option String × Option String × Option String

/-- aggregate: df.groupby([budget_name, regeling, instrument, year],
dropna=False).agg(amount_k = sum, n_rows = size).  The grouped DataFrame is
the tabulation of this mapping over the (key, year) pairs present in the
input; a pair with no matching row maps to (0, 0) and produces no output
row. -/
def aggregate (rows : List Row) (k : SeriesKey) (y : ℤ) : ℚ × ℕ :=
  let l := rows.filter
    (fun r => (r.budget_name, r.regeling, r.instrument) = k ∧ r.year = y)
  ((l.map Row.amount_k).sum, l.length)

/-- Two-row input for the claim C9 witness. -/
def exRowA : Row :=
  { budget_name := some "EZK", regeling := some "WBSO", instrument := some "fiscaal",
    year := 2020, amount_k := 10 }

/-- Second witness row, same key and year as exRowA. -/
def exRowB : Row :=
  { budget_name := some "EZK", regeling := some "WBSO", instrument := some "fiscaal",
    year := 2020, amount_k := 5 }

end SubsidyTrends

namespace TenderNed

/-- Bandwidth constant 0.05 of mccrary_density_test in
pipelines/nl-tenderned-threshold-clustering/analyze.py. -/
def bandwidth : ℚ := 1/20

/-- Count of values with threshold - bandwidth <= v <= threshold + bandwidth
(the near_threshold selection). -/
def nearCount (values : List ℚ) (threshold : ℚ) : ℕ :=
  (values.filter (fun v => threshold - bandwidth ≤ v ∧ v ≤ threshold + bandwidth)).length

/-- Count of values with v < threshold - bandwidth (far_left). -/
def leftCount (values : List ℚ) (threshold : ℚ) : ℕ :=
  (values.filter (fun v => v < threshold - bandwidth)).length

/-- Count of values with v > threshold + bandwidth (far_right). -/
def rightCount (values : List ℚ) (threshold : ℚ) : ℕ :=
  (values.filter (fun v => threshold + bandwidth < v)).length

/-- stats.chisquare(observed, f_exp=expected) as called by the source, where
expected is literally the observed list: each term is
(observed - expected)^2 / expected = (c - c)^2 / c.  numpy evaluates that
term to 0 for c > 0 and to float NaN (0/0) for c = 0, and a sum containing
NaN is NaN; NaN is modeled as none. -/
def chisquareObsAsExp (counts : List ℕ) : Option ℚ :=
  if counts.all (fun c => decide (0 < c)) then
    some ((counts.map (fun (c : ℕ) => ((c : ℚ) - (c : ℚ)) ^ 2 / (c : ℚ))).sum)
  else none

/-- The p-value scipy derives from the statistic: the survival function of
the chi-square distribution with 2 degrees of freedom, exp(-x/2).  The
statistic is identically 0 whenever it is defined (expected = observed), so
only the exact value sf(0) = 1 is ever consumed; positive arguments never
arise in this program and are truncated to 0 here to stay inside ℚ. -/
def chiSq2Sf (x : ℚ) : ℚ := if x ≤ 0 then 1 else 0

/-- Result record of mccrary_density_test (test_statistic duplicates
chi2_statistic in the source and is omitted). -/
structure MccraryResult where
  n_near_threshold : ℕ
  n_far_left : ℕ
  n_far_right : ℕ
  chi2_statistic : Option ℚ
  p_value : Option ℚ
  z_score : Option ℚ
deriving DecidableEq

/-- mccrary_density_test from the source.  The bins array built from
np.arange is dead code (never used by the counts or the test) and is not
embedded.  The z-score line divides the difference observed[0] - expected[0]
by sqrt(expected[0]); since that numerator is identically 0, dividing by
expected[0] instead gives the same value (0) exactly when expected[0] > 0
and the same NaN (none) when expected[0] = 0, avoiding the irrational
square root.  The chi-square branch requires more than 5 total observations,
else both chi2 and p are NaN; the z-score is computed outside that guard. -/
def mccrary_density_test (values : List ℚ) (threshold : ℚ) : MccraryResult :=
  let near := nearCount values threshold
  let left := leftCount values threshold
  let right := rightCount values threshold
  let chi2 : Option ℚ :=
    if 5 < near + left + right then chisquareObsAsExp [near, left, right] else none
  { n_near_threshold := near
    n_far_left := left
    n_far_right := right
    chi2_statistic := chi2
    p_value := chi2.map chiSq2Sf
    z_score := if near = 0 then none else some (((near : ℚ) - (near : ℚ)) / (near : ℚ)) }

/-- Ten contract-value ratios far below the threshold: the claim C2
counterexample input (near and far_right counts are 0). -/
def exRatios : List ℚ :=
  [1/10, 1/10, 1/10, 1/10, 1/10, 1/10, 1/10, 1/10, 1/10, 1/10]

/-- Input with all three counts positive for the claim C2 witness. -/
def exRatiosPos : List ℚ := [1/2, 1/2, 1/2, 1, 3/2, 3/2]

end TenderNed

namespace KvkInsolvency

/-- RAPID_THRESHOLD_DAYS = 3 * 365 from
pipelines/nl-kvk-insolvency-cross-ref/analyze.py. -/
def RAPID_THRESHOLD_DAYS : ℤ := 3 * 365

/-- Gregorian leap year rule, as in Python datetime. -/
def isLeapYear (y : ℕ) : Bool := y % 4 = 0 && (y % 100 != 0 || y % 400 = 0)

/-- Days in a month of the Gregorian calendar. -/
def daysInMonth (y m : ℕ) : ℕ :=
  if m = 2 then (if isLeapYear y then 29 else 28)
  else if m = 4 ∨ m = 6 ∨ m = 9 ∨ m = 11 then 30
  else 31

/-- Days in the months of year y before month m. -/
def daysBeforeMonth (y m : ℕ) : ℕ :=
  ((List.range (m - 1)).map (fun (i : ℕ) => daysInMonth y (i + 1))).sum

/-- Proleptic Gregorian ordinal of a valid date, day 1 being 0001-01-01,
matching Python date.toordinal; datetime subtraction of midnight datetimes
yields exactly the difference of these ordinals in days.  (On valid dates
the subtractions never truncate: 365 * (y - 1) dominates (y - 1) / 100.) -/
def dateOrdinal (y m d : ℕ) : ℕ :=
  365 * (y - 1) + (y - 1) / 4 - (y - 1) / 100 + (y - 1) / 400 + daysBeforeMonth y m + d

/-- Calendar validity as enforced by datetime: year 1..9999, month 1..12,
day within the month. -/
def isValidDate (y m d : ℕ) : Bool :=
  1 ≤ y && y ≤ 9999 && 1 ≤ m && m ≤ 12 && 1 ≤ d && d ≤ daysInMonth y m

/-- Digit value of a character, none for a non-digit. -/
def digitVal (c : Char) : Option ℕ := if c.isDigit then some (c.toNat - 48) else none

/-- Decimal number denoted by a digit string, none if any character is not a
digit. -/
def parseNatDigits (s : List Char) : Option ℕ :=
  s.foldl
    (fun acc c =>
      match acc, digitVal c with
      | some n, some d => some (10 * n + d)
      | _, _ => none)
    (some 0)

/-- datetime.strptime(s[:8], "%Y%m%d") for the fixed-width digit strings this
dataset holds: 4-digit year, 2-digit month, 2-digit day, then calendar
validity; anything else raises ValueError in the source (modeled none). -/
def parseYmd8 (s : String) : Option (ℕ × ℕ × ℕ) :=
  let cs := s.data.take 8
  if cs.length = 8 ∧ cs.all Char.isDigit then
    match parseNatDigits (cs.take 4), parseNatDigits ((cs.drop 4).take 2),
        parseNatDigits (cs.drop 6) with
    | some y, some m, some d => if isValidDate y m d then some (y, m, d) else none
    | _, _, _ => none
  else none

/-- datetime.strptime(s[:10], "%Y-%m-%d") for the fixed-width ISO strings of
the insolvency register; anything else raises ValueError (modeled none). -/
def parseIso10 (s : String) : Option (ℕ × ℕ × ℕ) :=
  match s.data.take 10 with
  | [y1, y2, y3, y4, h1, m1, m2, h2, d1, d2] =>
      if h1 = '-' ∧ h2 = '-' ∧ [y1, y2, y3, y4, m1, m2, d1, d2].all Char.isDigit then
        match parseNatDigits [y1, y2, y3, y4], parseNatDigits [m1, m2],
            parseNatDigits [d1, d2] with
        | some y, some m, some d => if isValidDate y m d then some (y, m, d) else none
        | _, _, _ => none
      else none
  | _ => none

/-- Per-KVK-number data from the SBI file: earliest DATUMAANVANG (YYYYMMDD)
and the set of SBI codes. -/
structure KvkInfo where
  earliest_date : String
  sbi_codes : List String
deriving DecidableEq

/-- One parsed insolvency record (load_insolvency_records output).  A missing
bankruptcy date (None in the source) is modeled by the empty string, which
the source treats identically (falsy). -/
structure InsRecord where
  kvk_nr : String
  name : String
  insolventienummer : String
  bankruptcy_date : String
  postcode : String
  straat : String
  huisnummer : String
  plaats : String
deriving DecidableEq

/-- Output row of find_rapid_insolvencies.  registration_date keeps the
parsed (y, m, d) triple that the source re-formats as YYYY-MM-DD; sbi_codes
keeps the code list that the source joins sorted into one string. -/
structure RapidRecord where
  kvk_number : String
  company_name : String
  registration_date : ℕ × ℕ × ℕ
  insolvency_date : String
  days_to_insolvency : ℤ
  sbi_codes : List String
  postcode : String
  address : String
  city : String
  insolventienummer : String
deriving DecidableEq

/-- str.strip() on the underlying character list: drop leading and trailing
whitespace. -/
def pyStrip (s : String) : String :=
  ⟨(((s.data.dropWhile Char.isWhitespace).reverse).dropWhile Char.isWhitespace).reverse⟩

/-- The loop body of find_rapid_insolvencies for one insolvency record:
skip unmatched KVK numbers, missing dates and unparseable dates; compute
days_to_insolvency = bankruptcy ordinal - registration ordinal; keep the
record iff 0 < days <= RAPID_THRESHOLD_DAYS. -/
def rapidStep (kvkData : String → Option KvkInfo) (rec : InsRecord) :
    Option RapidRecord :=
  match kvkData rec.kvk_nr with
  | none => none
  | some info =>
      if rec.bankruptcy_date = "" ∨ info.earliest_date = "" then none
      else
        match parseYmd8 info.earliest_date, parseIso10 rec.bankruptcy_date with
        | some rd, some bd =>
            let days : ℤ :=
              (dateOrdinal bd.1 bd.2.1 bd.2.2 : ℤ) - (dateOrdinal rd.1 rd.2.1 rd.2.2 : ℤ)
            if 0 < days ∧ days ≤ RAPID_THRESHOLD_DAYS then
              some { kvk_number := rec.kvk_nr
                     company_name := rec.name
                     registration_date := rd
                     insolvency_date := rec.bankruptcy_date
                     days_to_insolvency := days
                     sbi_codes := info.sbi_codes
                     postcode := rec.postcode
                     address := pyStrip (rec.straat ++ " " ++ rec.huisnummer)
                     city := rec.plaats
                     insolventienummer := rec.insolventienummer }
            else none
        | _, _ => none

/-- find_rapid_insolvencies: the filtered records sorted ascending by
days_to_insolvency (rapid.sort(key=days_to_insolvency)). -/
def find_rapid_insolvencies (kvkData : String → Option KvkInfo)
    (records : List InsRecord) : List RapidRecord :=
  (records.filterMap (rapidStep kvkData)).mergeSort
    (fun a b => decide (a.days_to_insolvency ≤ b.days_to_insolvency))

/-- KVK lookup table for the claim C10 witness. -/
def exKvkData : String → Option KvkInfo :=
  fun k =>
    if k = "12345678" then
      some { earliest_date := "20200115", sbi_codes := ["6201"] }
    else none

/-- Insolvency record for the claim C10 witness: bankruptcy 365 days after
registration. -/
def exInsRecord : InsRecord :=
  { kvk_nr := "12345678", name := "Testbedrijf", insolventienummer := "F.01/20/1",
    bankruptcy_date := "2021-01-14", postcode := "1234AB", straat := "Kerkstraat",
    huisnummer := "1", plaats := "Utrecht" }

/-- Phoenix signal names collected per pair.  The source stores the name
similarity signal as a formatted string carrying the value; the value itself
is kept in the cluster record here. -/
inductive Signal where
  | same_postcode
  | shared_sbi
  | name_sim
deriving DecidableEq

/-- SBI codes of an entity: kvk_data.get(kvk, dict()).get("sbi_codes", set()),
the empty set when the KVK number is unknown. -/
def sbiOf (kvkData : String → Option KvkInfo) (k : String) : List String :=
  match kvkData k with
  | none => []
  | some info => info.sbi_codes

/-- Shared SBI codes of a pair (sbi1 and sbi2 intersection): the codes of the
first entity also held by the second. -/
def sharedSbi (kvkData : String → Option KvkInfo) (e1 e2 : InsRecord) :
    List String :=
  (sbiOf kvkData e1.kvk_nr).filter (fun c => c ∈ sbiOf kvkData e2.kvk_nr)

/-- The signal list of a pair from one postcode bucket: same_postcode always
(the bucket guarantees it), shared_sbi when the SBI intersection is nonempty,
name_sim when the similarity reaches 0.6.  The similarity function is a
parameter: the source instantiates it with the SequenceMatcher ratio of the
lowercased, legal-suffix-stripped names, and the clustering contract depends
only on the returned ratio. -/
def signalsOf (kvkData : String → Option KvkInfo) (sim : String → String → ℚ)
    (e1 e2 : InsRecord) : List Signal :=
  [Signal.same_postcode] ++
    (if sharedSbi kvkData e1 e2 ≠ [] then [Signal.shared_sbi] else []) ++
    (if 3/5 ≤ sim e1.name e2.name then [Signal.name_sim] else [])

/-- Output record of find_phoenix_clusters.  The source stores
name_similarity as the 2-decimal-formatted string of this value and
shared_sbi_codes as the sorted comma join of this list. -/
structure PhoenixCluster where
  cluster_postcode : String
  entity_1_kvk : String
  entity_1_name : String
  entity_1_insolvency : String
  entity_1_bankruptcy_date : String
  entity_2_kvk : String
  entity_2_name : String
  entity_2_insolvency : String
  entity_2_bankruptcy_date : String
  shared_sbi_codes : List String
  signals : List Signal
  name_similarity : ℚ
deriving DecidableEq

/-- The cluster record built from a flagged pair. -/
def mkCluster (kvkData : String → Option KvkInfo) (sim : String → String → ℚ)
    (e1 e2 : InsRecord) : PhoenixCluster :=
  { cluster_postcode := e1.postcode
    entity_1_kvk := e1.kvk_nr
    entity_1_name := e1.name
    entity_1_insolvency := e1.insolventienummer
    entity_1_bankruptcy_date := e1.bankruptcy_date
    entity_2_kvk := e2.kvk_nr
    entity_2_name := e2.name
    entity_2_insolvency := e2.insolventienummer
    entity_2_bankruptcy_date := e2.bankruptcy_date
    shared_sbi_codes := sharedSbi kvkData e1 e2
    signals := signalsOf kvkData sim e1 e2
    name_similarity := sim e1.name e2.name }

/-- The deduplication key of a pair:
tuple(sorted([n1, n2])) over the insolvency numbers.  Two sorted tuples are
equal exactly when the unordered pairs (with multiplicity) are, so the key
is modeled as the unordered pair itself. -/
def pairKey (e1 e2 : InsRecord) : Multiset String :=
  {e1.insolventienummer, e2.insolventienummer}

/-- Helper of dedupFirst carrying the set of already seen keys. -/
def dedupFirstGo (seen : List String) : List String → List String
  | [] => []
  | x :: xs =>
      if x ∈ seen then dedupFirstGo seen xs
      else x :: dedupFirstGo (x :: seen) xs

/-- First-occurrence deduplication: the key iteration order of the
by_postcode dict (insertion order). -/
def dedupFirst (l : List String) : List String := dedupFirstGo [] l

/-- The bucket of a postcode: the records carrying it, in input order
(records with empty postcode are never bucketed since only nonempty
postcodes become keys). -/
def bucketOf (records : List InsRecord) (p : String) : List InsRecord :=
  records.filter (fun r => r.postcode = p)

/-- The bucket keys: the distinct nonempty postcodes in first-occurrence
order. -/
def bucketKeys (records : List InsRecord) : List String :=
  dedupFirst ((records.filter (fun r => r.postcode ≠ "")).map
    (fun r => r.postcode))

/-- All pairs (i, j) with i < j of one bucket, in the double-loop order of
the source. -/
def allPairs : List InsRecord → List (InsRecord × InsRecord)
  | [] => []
  | x :: xs => xs.map (fun y => (x, y)) ++ allPairs xs

/-- The pairs the source enumerates: bucket by bucket, skipping buckets of
fewer than 2 entities (which contribute no pairs anyway). -/
def candidatePairs (records : List InsRecord) : List (InsRecord × InsRecord) :=
  (bucketKeys records).flatMap (fun p =>
    if (bucketOf records p).length < 2 then [] else allPairs (bucketOf records p))

/-- The pair loop with its seen_pairs set: a pair whose key was seen before
is skipped entirely; otherwise the key is recorded (before the signal check,
as in the source) and the cluster is emitted iff at least 2 signals hold. -/
def processPairs (kvkData : String → Option KvkInfo) (sim : String → String → ℚ) :
    List (Multiset String) → List (InsRecord × InsRecord) → List PhoenixCluster
  | _, [] => []
  | seen, (e1, e2) :: rest =>
      if pairKey e1 e2 ∈ seen then processPairs kvkData sim seen rest
      else
        (if 2 ≤ (signalsOf kvkData sim e1 e2).length then
          [mkCluster kvkData sim e1 e2]
        else []) ++ processPairs kvkData sim (pairKey e1 e2 :: seen) rest

/-- find_phoenix_clusters: the processed pair list sorted by descending name
similarity (the source sorts by the parsed 2-decimal-formatted similarity;
the rounding can permute near-ties but never changes membership). -/
def find_phoenix_clusters (kvkData : String → Option KvkInfo)
    (sim : String → String → ℚ) (records : List InsRecord) :
    List PhoenixCluster :=
  (processPairs kvkData sim [] (candidatePairs records)).mergeSort
    (fun a b => decide (b.name_similarity ≤ a.name_similarity))

/-- First entity of the claim C8 witness pair. -/
def exPhoenixA : InsRecord :=
  { kvk_nr := "11111111", name := "Alpha", insolventienummer := "F.1",
    bankruptcy_date := "2022-01-01", postcode := "1234AB", straat := "",
    huisnummer := "", plaats := "" }

/-- Second entity of the claim C8 witness pair: same postcode. -/
def exPhoenixB : InsRecord :=
  { kvk_nr := "22222222", name := "Alpha Beta", insolventienummer := "F.2",
    bankruptcy_date := "2023-01-01", postcode := "1234AB", straat := "",
    huisnummer := "", plaats := "" }

/-- Constant similarity 0.7 (above the 0.6 threshold and trivially
symmetric), for the claim C8 witness. -/
def exSimConst : String → String → ℚ := fun _ _ => 7/10

/-- Empty KVK table for the claim C8 witness: no entity has any SBI code, so
the witness pair shares no SBI code. -/
def exNoKvk : String → Option KvkInfo := fun _ => none


/-- A record whose bankruptcy date precedes its registration date, for the
claim C10 witness of the never-flagged direction. -/
def exInsRecordEarly : InsRecord :=
  { kvk_nr := "12345678", name := "Testbedrijf", insolventienummer := "F.01/19/9",
    bankruptcy_date := "2019-12-31", postcode := "1234AB", straat := "Kerkstraat",
    huisnummer := "1", plaats := "Utrecht" }

/-- The record that find_rapid_insolvencies emits on exInsRecord:
bankruptcy ordinal minus registration ordinal is 365 days. -/
def exRapidRecord : RapidRecord :=
  { kvk_number := "12345678", company_name := "Testbedrijf",
    registration_date := (2020, 1, 15), insolvency_date := "2021-01-14",
    days_to_insolvency := 365, sbi_codes := ["6201"], postcode := "1234AB",
    address := "Kerkstraat 1", city := "Utrecht", insolventienummer := "F.01/20/1" }

end KvkInsolvency

open SubsidyTrends

namespace SubsidyTrends

theorem foldl_min_le (l : List ℤ) (a : ℤ) :
    l.foldl min a ≤ a ∧ ∀ b ∈ l, l.foldl min a ≤ b := by
  induction l generalizing a with
  | nil => simp
  | cons x xs ih =>
      simp only [List.foldl_cons]
      obtain ⟨h1, h2⟩ := ih (min a x)
      refine ⟨le_trans h1 (min_le_left a x), ?_⟩
      intro b hb
      rcases List.mem_cons.1 hb with rfl | hb
      · exact le_trans h1 (min_le_right a b)
      · exact h2 b hb

theorem minYear_le_of_mem {obs : Obs} {p : ℤ × ℚ} (hp : p ∈ obs) :
    minYear obs ≤ p.1 := by
  unfold minYear
  cases hm : obs.map Prod.fst with
  | nil => simp [List.map_eq_nil_iff] at hm; subst hm; cases hp
  | cons y ys =>
      have hmem : p.1 ∈ y :: ys := hm ▸ List.mem_map_of_mem Prod.fst hp
      rcases List.mem_cons.1 hmem with h1 | h1
      · exact h1 ▸ (foldl_min_le ys y).1
      · exact (foldl_min_le ys y).2 _ h1

theorem amt_eq_zero_of_lt_minYear {obs : Obs} {y : ℤ} (h : y < minYear obs) :
    amt obs y = 0 := by
  unfold amt
  have hnil : obs.filter (fun p => decide (p.1 = y)) = [] := by
    rw [List.filter_eq_nil_iff]
    intro p hp hdec
    have h1 := minYear_le_of_mem hp
    have h2 : p.1 = y := by simpa using hdec
    omega
  rw [hnil]
  simp

theorem amt_nonneg {obs : Obs} (hnn : ∀ p ∈ obs, 0 ≤ p.2) (y : ℤ) :
    0 ≤ amt obs y := by
  unfold amt
  refine List.sum_nonneg ?_
  intro x hx
  obtain ⟨p, hp, rfl⟩ := List.mem_map.1 hx
  exact hnn p (List.mem_of_mem_filter hp)

theorem sampleVarGrowth_nonneg {obs : Obs} {v : ℚ} (h : sampleVarGrowth obs = some v) :
    0 ≤ v := by
  unfold sampleVarGrowth at h
  rcases hm : meanGrowth obs with _ | m <;> rw [hm] at h
  · cases h
  · dsimp only at h
    split_ifs at h with hl
    obtain rfl := Option.some_inj.1 h
    apply div_nonneg
    · apply List.sum_nonneg
      intro x hx
      obtain ⟨a, _, rfl⟩ := List.mem_map.1 hx
      positivity
    · positivity

theorem mem_yearRange_lower {obs : Obs} {y : ℤ} (h : y ∈ yearRange obs) :
    minYear obs ≤ y := by
  unfold yearRange at h
  obtain ⟨i, hi, rfl⟩ := List.mem_map.1 h
  omega

theorem yearRange_exBaseline : yearRange exBaseline = [2018, 2019, 2020, 2021] := by
  decide

theorem amt_exBaseline_2018 : amt exBaseline 2018 = 1000 := by norm_num [amt, exBaseline]

theorem amt_exBaseline_2019 : amt exBaseline 2019 = 1100 := by norm_num [amt, exBaseline]

theorem amt_exBaseline_2020 : amt exBaseline 2020 = 1050 := by norm_num [amt, exBaseline]

theorem amt_exBaseline_2021 : amt exBaseline 2021 = 3000 := by norm_num [amt, exBaseline]

theorem rollWindow_exBaseline_2018 : rollWindowVals exBaseline 2018 = [] := rfl

theorem rollWindow_exBaseline_2019 :
    rollWindowVals exBaseline 2019 = [amt exBaseline 2018] := rfl

theorem rollWindow_exBaseline_2020 :
    rollWindowVals exBaseline 2020 = [amt exBaseline 2019, amt exBaseline 2018] := rfl

theorem rollWindow_exBaseline_2021 :
    rollWindowVals exBaseline 2021 =
      [amt exBaseline 2020, amt exBaseline 2019, amt exBaseline 2018] := rfl

theorem baselineAt_exBaseline_2018 : baselineAt exBaseline 2018 = none := by
  simp [baselineAt, rollWindow_exBaseline_2018]

theorem baselineAt_exBaseline_2019 : baselineAt exBaseline 2019 = none := by
  simp [baselineAt, rollWindow_exBaseline_2019]

theorem baselineAt_exBaseline_2020 : baselineAt exBaseline 2020 = some 1050 := by
  simp [baselineAt, rollWindow_exBaseline_2020, amt_exBaseline_2019, amt_exBaseline_2018]
  norm_num

theorem baselineAt_exBaseline_2021 : baselineAt exBaseline 2021 = some 1050 := by
  simp [baselineAt, rollWindow_exBaseline_2021, amt_exBaseline_2020, amt_exBaseline_2019,
    amt_exBaseline_2018]
  norm_num

theorem detect_exBaseline_eq :
    detectBaselineDeviations exBaseline = [exBaselineRecord] := by
  unfold detectBaselineDeviations exBaselineRecord
  rw [if_neg (by decide), yearRange_exBaseline]
  simp only [List.filterMap_cons, List.filterMap_nil, baselineAt_exBaseline_2018,
    baselineAt_exBaseline_2019, baselineAt_exBaseline_2020, baselineAt_exBaseline_2021,
    amt_exBaseline_2020, amt_exBaseline_2021]
  norm_num [MIN_BASELINE_K, BASELINE_DEVIATION_PCT, yearRange_exBaseline]
  rw [show |(13 : ℚ)/7| = 13/7 from abs_of_pos (by norm_num), if_pos (by norm_num),
    List.mergeSort_singleton]

theorem yearRange_exGrowth : yearRange exGrowth = [2017, 2018, 2019, 2020] := by decide

theorem growthAt_exGrowth_2017 : growthAt exGrowth 2017 = none := by
  simp only [growthAt]
  rw [if_pos (Or.inl (by decide : (2017 : ℤ) ≤ minYear exGrowth))]

theorem growthAt_exGrowth_2018 : growthAt exGrowth 2018 = some (1/10) := by
  simp only [growthAt]
  rw [if_neg (by decide)]
  norm_num [amt, exGrowth]

theorem growthAt_exGrowth_2019 : growthAt exGrowth 2019 = some (39/11) := by
  simp only [growthAt]
  rw [if_neg (by decide)]
  norm_num [amt, exGrowth]

theorem growthAt_exGrowth_2020 : growthAt exGrowth 2020 = some (1/25) := by
  simp only [growthAt]
  rw [if_neg (by decide)]
  norm_num [amt, exGrowth]

theorem definedGrowths_exGrowth : definedGrowths exGrowth = [1/10, 39/11, 1/25] := by
  simp only [definedGrowths, yearRange_exGrowth, List.filterMap_cons, List.filterMap_nil,
    growthAt_exGrowth_2017, growthAt_exGrowth_2018, growthAt_exGrowth_2019,
    growthAt_exGrowth_2020]

theorem meanGrowth_exGrowth : meanGrowth exGrowth = some (2027/1650) := by
  simp only [meanGrowth, definedGrowths_exGrowth]
  norm_num

theorem sampleVar_exGrowth : sampleVarGrowth exGrowth = some (3654649/907500) := by
  simp only [sampleVarGrowth, definedGrowths_exGrowth, meanGrowth_exGrowth]
  norm_num

theorem detect_exGrowth_eq_nil : detectGrowthAnomalies exGrowth = [] := by
  unfold detectGrowthAnomalies
  rw [if_neg (by decide)]
  rw [meanGrowth_exGrowth, sampleVar_exGrowth, yearRange_exGrowth]
  simp only [List.filterMap_cons, List.filterMap_nil, growthAt_exGrowth_2017,
    growthAt_exGrowth_2018, growthAt_exGrowth_2019, growthAt_exGrowth_2020]
  norm_num [GROWTH_Z_THRESHOLD]

theorem yearRange_exPopStd :
    yearRange exPopStd = [2000, 2001, 2002, 2003, 2004, 2005, 2006] := by decide

theorem growthAt_exPopStd_2000 : growthAt exPopStd 2000 = none := by
  simp only [growthAt]
  rw [if_pos (Or.inl (by decide : (2000 : ℤ) ≤ minYear exPopStd))]

theorem growthAt_exPopStd_2001 : growthAt exPopStd 2001 = some 0 := by
  simp only [growthAt]
  rw [if_neg (by decide)]
  norm_num [amt, exPopStd]

theorem growthAt_exPopStd_2002 : growthAt exPopStd 2002 = some 0 := by
  simp only [growthAt]
  rw [if_neg (by decide)]
  norm_num [amt, exPopStd]

theorem growthAt_exPopStd_2003 : growthAt exPopStd 2003 = some 0 := by
  simp only [growthAt]
  rw [if_neg (by decide)]
  norm_num [amt, exPopStd]

theorem growthAt_exPopStd_2004 : growthAt exPopStd 2004 = some 0 := by
  simp only [growthAt]
  rw [if_neg (by decide)]
  norm_num [amt, exPopStd]

theorem growthAt_exPopStd_2005 : growthAt exPopStd 2005 = some 0 := by
  simp only [growthAt]
  rw [if_neg (by decide)]
  norm_num [amt, exPopStd]

theorem growthAt_exPopStd_2006 : growthAt exPopStd 2006 = some 1 := by
  simp only [growthAt]
  rw [if_neg (by decide)]
  norm_num [amt, exPopStd]

theorem definedGrowths_exPopStd : definedGrowths exPopStd = [0, 0, 0, 0, 0, 1] := by
  simp only [definedGrowths, yearRange_exPopStd, List.filterMap_cons, List.filterMap_nil,
    growthAt_exPopStd_2000, growthAt_exPopStd_2001, growthAt_exPopStd_2002,
    growthAt_exPopStd_2003, growthAt_exPopStd_2004, growthAt_exPopStd_2005,
    growthAt_exPopStd_2006]

theorem meanGrowth_exPopStd : meanGrowth exPopStd = some (1/6) := by
  simp only [meanGrowth, definedGrowths_exPopStd]
  norm_num

theorem sampleVar_exPopStd : sampleVarGrowth exPopStd = some (1/6) := by
  simp only [sampleVarGrowth, definedGrowths_exPopStd, meanGrowth_exPopStd]
  norm_num

theorem popVar_exPopStd : popVarGrowth exPopStd = some (5/36) := by
  simp only [popVarGrowth, definedGrowths_exPopStd, meanGrowth_exPopStd]
  norm_num

theorem amt_exPopStd_2005 : amt exPopStd 2005 = 100 := by norm_num [amt, exPopStd]

theorem amt_exPopStd_2006 : amt exPopStd 2006 = 200 := by norm_num [amt, exPopStd]

theorem detect_exPopStd :
    detectGrowthAnomalies exPopStd = [exPopStdRecord] := by
  unfold detectGrowthAnomalies exPopStdRecord
  rw [if_neg (by decide)]
  rw [meanGrowth_exPopStd, sampleVar_exPopStd, yearRange_exPopStd]
  simp only [List.filterMap_cons, List.filterMap_nil, growthAt_exPopStd_2000,
    growthAt_exPopStd_2001, growthAt_exPopStd_2002, growthAt_exPopStd_2003,
    growthAt_exPopStd_2004, growthAt_exPopStd_2005, growthAt_exPopStd_2006]
  norm_num [GROWTH_Z_THRESHOLD, yearRange_exPopStd]
  norm_num [amt_exPopStd_2005, amt_exPopStd_2006]

theorem detectPop_exPopStd :
    detectGrowthAnomaliesPopStd exPopStd =
      [{ year := 2006, amount_k := 200, prev_amount_k := 100, yoy_growth := 1,
         abs_change_k := 100, z_sq := 5, z_nonneg := true,
         series_mean_growth := 1/6, series_var_growth := 5/36, n_years := 7 }] := by
  unfold detectGrowthAnomaliesPopStd
  rw [if_neg (by decide)]
  rw [meanGrowth_exPopStd, popVar_exPopStd, yearRange_exPopStd]
  simp only [List.filterMap_cons, List.filterMap_nil, growthAt_exPopStd_2000,
    growthAt_exPopStd_2001, growthAt_exPopStd_2002, growthAt_exPopStd_2003,
    growthAt_exPopStd_2004, growthAt_exPopStd_2005, growthAt_exPopStd_2006]
  norm_num [GROWTH_Z_THRESHOLD, yearRange_exPopStd]
  norm_num [amt_exPopStd_2005, amt_exPopStd_2006]

theorem baselineAt_char (obs : Obs) (y : ℤ) :
    baselineAt obs y =
      if minYear obs + 3 ≤ y then
        some ((amt obs (y - 3) + amt obs (y - 2) + amt obs (y - 1)) / 3)
      else if minYear obs + 2 ≤ y then
        some ((amt obs (y - 2) + amt obs (y - 1)) / 2)
      else none := by
  by_cases h3 : minYear obs + 3 ≤ y
  · have ht : min ((y - minYear obs).toNat + 1) ROLLING_WINDOW = 3 := by
      simp only [ROLLING_WINDOW]
      omega
    unfold baselineAt rollWindowVals
    rw [ht, show List.range 3 = [0, 1, 2] by decide]
    simp only [List.map_cons, List.map_nil, shiftedAmt, Nat.cast_zero, Nat.cast_one,
      Nat.cast_ofNat, sub_zero]
    rw [if_neg (by omega : ¬ y = minYear obs),
        if_neg (by omega : ¬ y - 1 = minYear obs),
        if_neg (by omega : ¬ y - 2 = minYear obs)]
    simp only [List.filterMap_cons, id_eq, List.filterMap_nil, List.length_cons,
      List.length_nil, List.sum_cons, List.sum_nil]
    rw [if_pos (by norm_num : (2:ℕ) ≤ 0 + 1 + 1 + 1), if_pos h3]
    simp only [Option.some.injEq]
    push_cast
    ring_nf
  · by_cases h2 : minYear obs + 2 ≤ y
    · have ht : min ((y - minYear obs).toNat + 1) ROLLING_WINDOW = 3 := by
        simp only [ROLLING_WINDOW]
        omega
      unfold baselineAt rollWindowVals
      rw [ht, show List.range 3 = [0, 1, 2] by decide]
      simp only [List.map_cons, List.map_nil, shiftedAmt, Nat.cast_zero, Nat.cast_one,
        Nat.cast_ofNat, sub_zero]
      rw [if_neg (by omega : ¬ y = minYear obs),
          if_neg (by omega : ¬ y - 1 = minYear obs),
          if_pos (by omega : y - 2 = minYear obs)]
      simp only [List.filterMap_cons, id_eq, List.filterMap_nil, List.length_cons,
        List.length_nil, List.sum_cons, List.sum_nil]
      rw [if_pos (by norm_num : (2:ℕ) ≤ 0 + 1 + 1), if_neg h3, if_pos h2]
      simp only [Option.some.injEq]
      push_cast
      rw [show y - 1 - 1 = y - 2 by ring]
      ring
    · have hle : (y - minYear obs).toNat + 1 ≤ 2 := by omega
      unfold baselineAt rollWindowVals
      rw [if_neg h3, if_neg h2]
      rcases Nat.lt_or_ge ((y - minYear obs).toNat) 1 with h1 | h1
      · have ht : min ((y - minYear obs).toNat + 1) ROLLING_WINDOW = 1 := by
          simp only [ROLLING_WINDOW]
          omega
        rw [ht, show List.range 1 = [0] by decide]
        simp only [List.map_cons, List.map_nil, shiftedAmt, Nat.cast_zero, sub_zero]
        by_cases hy : y = minYear obs
        · rw [if_pos hy]
          rfl
        · rw [if_neg hy]
          rfl
      · have ht : min ((y - minYear obs).toNat + 1) ROLLING_WINDOW = 2 := by
          simp only [ROLLING_WINDOW]
          omega
        rw [ht, show List.range 2 = [0, 1] by decide]
        simp only [List.map_cons, List.map_nil, shiftedAmt, Nat.cast_zero, Nat.cast_one,
          sub_zero]
        rw [if_neg (by omega : ¬ y = minYear obs),
            if_pos (by omega : y - 1 = minYear obs)]
        rfl

end SubsidyTrends

/-- Claim C4: a series with fewer than MIN_YEARS = 4 distinct observed years
produces no growth anomaly record and no baseline deviation record; both
detectors return empty output for it (a defined exclusion, not an error). -/
theorem short_series_excluded (obs : Obs)
    (h : nDistinctYears obs < MIN_YEARS) :
    detectGrowthAnomalies obs = [] ∧ detectBaselineDeviations obs = [] := by
  unfold detectGrowthAnomalies detectBaselineDeviations
  rw [if_pos h, if_pos h]
  exact ⟨rfl, rfl⟩

/-- Witness for claim C4 at the two-year series exShort. -/
theorem short_series_excluded_witness :
    nDistinctYears exShort < MIN_YEARS ∧
      (detectGrowthAnomalies exShort = [] ∧ detectBaselineDeviations exShort = []) :=
  ⟨by decide, short_series_excluded exShort (by decide)⟩

/-- Claim C6: over the reindexed zero-filled year range, growth at year y is
defined iff the previous amount is strictly positive (given the data-model
invariant that amounts are nonnegative), in which case it equals
(amount y - amount (y-1)) / amount (y-1); and on the series
(2020, 0), (2021, 100), (2022, 150), growth for 2021 is undefined
(excluded, not infinite or zero) while growth for 2022 is 1/2. -/
theorem growth_defined_iff_prev_pos (obs : Obs) (y : ℤ)
    (hnn : ∀ p ∈ obs, 0 ≤ p.2) (h1 : minYear obs ≤ y) (h2 : y ≤ maxYear obs) :
    ((growthAt obs y).isSome ↔ 0 < amt obs (y - 1)) ∧
      (∀ g, growthAt obs y = some g →
        g = (amt obs y - amt obs (y - 1)) / amt obs (y - 1)) ∧
      growthAt exZeroBase 2021 = none ∧ growthAt exZeroBase 2022 = some (1/2) := by
  refine ⟨?_, ?_, ?_, ?_⟩
  · unfold growthAt
    by_cases hy : y ≤ minYear obs ∨ maxYear obs < y
    · rw [if_pos hy]
      have hy' : y = minYear obs := by omega
      have hz : amt obs (y - 1) = 0 := amt_eq_zero_of_lt_minYear (by omega)
      simp [hz]
    · rw [if_neg hy]
      by_cases hz : amt obs (y - 1) = 0
      · simp [hz]
      · have hpos : 0 < amt obs (y - 1) :=
          lt_of_le_of_ne (amt_nonneg hnn _) (Ne.symm hz)
        simp [hz, hpos]
  · intro g hg
    unfold growthAt at hg
    split_ifs at hg with ha hb
    exact (Option.some_inj.1 hg).symm
  · norm_num [growthAt, amt, minYear, maxYear, exZeroBase]
  · norm_num [growthAt, amt, minYear, maxYear, exZeroBase]

/-- Witness for claim C6 at year 2022 of the example series. -/
theorem growth_defined_iff_prev_pos_witness :
    (∀ p ∈ exZeroBase, 0 ≤ p.2) ∧ minYear exZeroBase ≤ 2022 ∧
      2022 ≤ maxYear exZeroBase ∧
      (((growthAt exZeroBase 2022).isSome ↔ 0 < amt exZeroBase 2021) ∧
        (∀ g, growthAt exZeroBase 2022 = some g →
          g = (amt exZeroBase 2022 - amt exZeroBase 2021) / amt exZeroBase 2021) ∧
        growthAt exZeroBase 2021 = none ∧ growthAt exZeroBase 2022 = some (1/2)) := by
  refine ⟨by norm_num [exZeroBase], by norm_num [minYear, exZeroBase],
    by norm_num [maxYear, exZeroBase], ?_⟩
  have h := growth_defined_iff_prev_pos exZeroBase 2022
    (by norm_num [exZeroBase]) (by norm_num [minYear, exZeroBase])
    (by norm_num [maxYear, exZeroBase])
  simpa using h

/-- Claim C7: on the series (2018, 1000), (2019, 1100), (2020, 1050),
(2021, 3000), baseline deviation detection emits exactly one record: year
2021 with baseline mean(1000, 1100, 1050) = 1050, deviation
(3000 - 1050) / 1050 = 13/7 (about 1.857, i.e. about 185.7 percent) and
direction over.  Year 2020 has deviation 0 and is not flagged. -/
theorem baseline_example_2021_over :
    detectBaselineDeviations exBaseline =
      [{ year := 2021, amount_k := 3000, baseline_k := 1050, deviation := 13/7,
         direction := Direction.over, n_years := 4 }] :=
  detect_exBaseline_eq

/-- Claim C3 counterexample: on the series (2017, 100), (2018, 110),
(2019, 500), (2020, 520) the growth detector emits NO record at all, so 2019
is not flagged, contradicting the claim that the z-score of 2019 exceeds 2.0
and that 2019 is the sole flagged year.  With only 3 growth values the
z-score magnitude can never reach 2 (its maximum is (n-1)/sqrt n at
ddof = 1, about 1.155 for n = 3). -/
theorem growth_example_2019_not_flagged : detectGrowthAnomalies exGrowth = [] :=
  detect_exGrowth_eq_nil

/-- Claim C3 (amended): the growth series of the example is
(0.1, 39/11, 0.04) with mean 2027/1650 (about 1.228) and sample variance
3654649/907500 (std about 2.007), exactly as the specification computes them,
but no year is flagged: the z-score of 2019 is about 1.15, short of the 2.0
threshold, so the detector emits nothing for this series. -/
theorem growth_example_stats :
    definedGrowths exGrowth = [1/10, 39/11, 1/25] ∧
      meanGrowth exGrowth = some (2027/1650) ∧
      sampleVarGrowth exGrowth = some (3654649/907500) ∧
      detectGrowthAnomalies exGrowth = [] :=
  ⟨definedGrowths_exGrowth, meanGrowth_exGrowth, sampleVar_exGrowth,
    detect_exGrowth_eq_nil⟩

/-- Claim C1 (amended): the statistics used by detect_growth_anomalies are
the mean and the SAMPLE standard deviation (pandas .std(), ddof = 1) of the
defined growth values, not the population standard deviation; a series whose
sample std is undefined (fewer than 2 defined growth values) or zero
produces no records; and every emitted record carries the series statistics,
satisfies the z-equation z_sq * var = (growth - mean)^2 and the threshold
condition (growth - mean)^2 at least 4 * var, i.e. abs z at least 2. -/
theorem growth_anomaly_sample_std (obs : Obs) (r : GrowthAnomaly) :
    (sampleVarGrowth obs = none ∨ sampleVarGrowth obs = some 0 →
        detectGrowthAnomalies obs = []) ∧
      (r ∈ detectGrowthAnomalies obs →
        meanGrowth obs = some r.series_mean_growth ∧
          sampleVarGrowth obs = some r.series_var_growth ∧
          0 < r.series_var_growth ∧
          growthAt obs r.year = some r.yoy_growth ∧
          GROWTH_Z_THRESHOLD ^ 2 * r.series_var_growth ≤
            (r.yoy_growth - r.series_mean_growth) ^ 2 ∧
          r.z_sq * r.series_var_growth = (r.yoy_growth - r.series_mean_growth) ^ 2) := by
  constructor
  · intro h
    unfold detectGrowthAnomalies
    by_cases hg : nDistinctYears obs < MIN_YEARS
    · rw [if_pos hg]
    · rw [if_neg hg]
      rcases hm : meanGrowth obs with _ | m <;>
        rcases h with h | h <;> (rw [h]; try simp)
  · intro hr
    unfold detectGrowthAnomalies at hr
    by_cases hg : nDistinctYears obs < MIN_YEARS
    · rw [if_pos hg] at hr
      cases hr
    · rw [if_neg hg] at hr
      rcases hm : meanGrowth obs with _ | m <;> rw [hm] at hr
      · cases hr
      · rcases hv : sampleVarGrowth obs with _ | v <;> rw [hv] at hr
        · cases hr
        · dsimp only at hr
          by_cases h0 : v = 0
          · rw [if_pos h0] at hr
            cases hr
          · rw [if_neg h0] at hr
            rw [List.mem_mergeSort] at hr
            obtain ⟨y, hy, hbody⟩ := List.mem_filterMap.1 hr
            rcases hgr : growthAt obs y with _ | g <;>
              (rw [hgr] at hbody; dsimp only at hbody)
            · cases hbody
            · split_ifs at hbody with hflag
              obtain rfl := Option.some_inj.1 hbody
              have hvpos : 0 < v :=
                lt_of_le_of_ne (sampleVarGrowth_nonneg hv) (Ne.symm h0)
              exact ⟨rfl, rfl, hvpos, hgr, hflag, div_mul_cancel₀ _ h0⟩

/-- Witness for claim C1 at the series exPopStd and its emitted record. -/
theorem growth_anomaly_sample_std_witness :
    exPopStdRecord ∈ detectGrowthAnomalies exPopStd ∧
      (meanGrowth exPopStd = some exPopStdRecord.series_mean_growth ∧
        sampleVarGrowth exPopStd = some exPopStdRecord.series_var_growth ∧
        0 < exPopStdRecord.series_var_growth ∧
        growthAt exPopStd exPopStdRecord.year = some exPopStdRecord.yoy_growth ∧
        GROWTH_Z_THRESHOLD ^ 2 * exPopStdRecord.series_var_growth ≤
          (exPopStdRecord.yoy_growth - exPopStdRecord.series_mean_growth) ^ 2 ∧
        exPopStdRecord.z_sq * exPopStdRecord.series_var_growth =
          (exPopStdRecord.yoy_growth - exPopStdRecord.series_mean_growth) ^ 2) :=
  have hm : exPopStdRecord ∈ detectGrowthAnomalies exPopStd := by
    rw [detect_exPopStd]
    exact List.mem_singleton.2 rfl
  ⟨hm, (growth_anomaly_sample_std exPopStd exPopStdRecord).2 hm⟩

/-- Claim C1 counterexample: on exPopStd the code emits exactly one record,
for 2006, whose squared z-score is 25/6 with divisor the sample variance 1/6;
the population variance of the same growth values is 5/36, and
(25/6) * (5/36) is not (1 - 1/6)^2, so the emitted z-score is NOT
(growth - mean) / population-std; the population-std variant would emit
z_sq = 5 instead.  The statistics the code uses are therefore the sample,
not the population, standard deviation. -/
theorem growth_anomaly_pop_std_cex :
    (detectGrowthAnomalies exPopStd).map
        (fun r => (r.year, r.yoy_growth, r.series_mean_growth, r.z_sq,
          r.series_var_growth)) = [(2006, 1, 1/6, 25/6, 1/6)] ∧
      popVarGrowth exPopStd = some (5/36) ∧
      (25/6 : ℚ) * (5/36) ≠ ((1 : ℚ) - 1/6) ^ 2 ∧
      (detectGrowthAnomaliesPopStd exPopStd).map
        (fun r => (r.z_sq, r.series_var_growth)) = [(5, 5/36)] := by
  refine ⟨?_, popVar_exPopStd, by norm_num, ?_⟩
  · rw [detect_exPopStd]
    rfl
  · rw [detectPop_exPopStd]
    rfl

/-- Claim C5: the rolling baseline at year y is the mean of the amounts of
the at most ROLLING_WINDOW = 3 years strictly preceding y within the
reindexed range (only y-1, y-2, y-3 appear; the amount of y itself never
does), it is undefined when fewer than 2 such years exist, and no emitted
baseline deviation record is for a year with fewer than 2 preceding years. -/
theorem baseline_trailing_window (obs : Obs) (y : ℤ) :
    (baselineAt obs y =
      if minYear obs + 3 ≤ y then
        some ((amt obs (y - 3) + amt obs (y - 2) + amt obs (y - 1)) / 3)
      else if minYear obs + 2 ≤ y then
        some ((amt obs (y - 2) + amt obs (y - 1)) / 2)
      else none) ∧
      (∀ r ∈ detectBaselineDeviations obs, minYear obs + 2 ≤ r.year) := by
  refine ⟨baselineAt_char obs y, ?_⟩
  intro r hr
  unfold detectBaselineDeviations at hr
  by_cases hg : nDistinctYears obs < MIN_YEARS
  · rw [if_pos hg] at hr
    cases hr
  · rw [if_neg hg] at hr
    rw [List.mem_mergeSort] at hr
    obtain ⟨z, hz, hbody⟩ := List.mem_filterMap.1 hr
    rcases hb : baselineAt obs z with _ | b <;> rw [hb] at hbody <;> dsimp only at hbody
    · cases hbody
    · have hc := baselineAt_char obs z
      rw [hb] at hc
      have hz2 : minYear obs + 2 ≤ z := by
        by_cases hA : minYear obs + 3 ≤ z
        · omega
        · rw [if_neg hA] at hc
          by_cases hB : minYear obs + 2 ≤ z
          · exact hB
          · rw [if_neg hB] at hc
            cases hc
      split_ifs at hbody <;>
        (obtain rfl := Option.some_inj.1 hbody; exact hz2)

/-- Witness for claim C5 at the series exBaseline, year 2021, and its
emitted record. -/
theorem baseline_trailing_window_witness :
    exBaselineRecord ∈ detectBaselineDeviations exBaseline ∧
      (baselineAt exBaseline 2021 =
        if minYear exBaseline + 3 ≤ 2021 then
          some ((amt exBaseline 2018 + amt exBaseline 2019 + amt exBaseline 2020) / 3)
        else if minYear exBaseline + 2 ≤ 2021 then
          some ((amt exBaseline 2019 + amt exBaseline 2020) / 2)
        else none) ∧
      minYear exBaseline + 2 ≤ exBaselineRecord.year :=
  have hm : exBaselineRecord ∈ detectBaselineDeviations exBaseline := by
    rw [detect_exBaseline_eq]
    exact List.mem_singleton.2 rfl
  ⟨hm, by simpa using (baseline_trailing_window exBaseline 2021).1,
    (baseline_trailing_window exBaseline 2021).2 exBaselineRecord hm⟩

/-- Claim C9: series materialization is order-insensitive and idempotent:
aggregate is a pure function of the multiset of rows, so permuting the input
rows leaves the whole (key, year) to (summed amount, row count) mapping
unchanged, and materializing twice from the same rows trivially yields the
same mapping (the special case of the reflexive permutation). -/
theorem aggregate_perm_invariant (rows1 rows2 : List SubsidyTrends.Row)
    (h : rows1.Perm rows2) :
    SubsidyTrends.aggregate rows1 = SubsidyTrends.aggregate rows2 := by
  funext k y
  unfold SubsidyTrends.aggregate
  have hp := h.filter
    (fun r => decide ((r.budget_name, r.regeling, r.instrument) = k ∧ r.year = y))
  exact Prod.ext ((hp.map SubsidyTrends.Row.amount_k).sum_eq) hp.length_eq

/-- Witness for claim C9 on a two-row input with a duplicate (key, year). -/
theorem aggregate_perm_invariant_witness :
    [SubsidyTrends.exRowA, SubsidyTrends.exRowB].Perm
        [SubsidyTrends.exRowB, SubsidyTrends.exRowA] ∧
      SubsidyTrends.aggregate [SubsidyTrends.exRowA, SubsidyTrends.exRowB] =
        SubsidyTrends.aggregate [SubsidyTrends.exRowB, SubsidyTrends.exRowA] :=
  have hp : [SubsidyTrends.exRowA, SubsidyTrends.exRowB].Perm
      [SubsidyTrends.exRowB, SubsidyTrends.exRowA] :=
    List.Perm.swap SubsidyTrends.exRowB SubsidyTrends.exRowA []
  ⟨hp, aggregate_perm_invariant _ _ hp⟩

open TenderNed

/-- Claim C2 (amended): for every input with more than 5 total observations,
the chi-square expected counts equal the observed counts, so whenever all
three counts are positive the returned chi2_statistic is 0, the p-value is
sf(0) = 1 and the z-score is 0; when a count is 0 the corresponding
statistics are NaN (none) instead of 0 - the test never produces a
significant result either way. -/
theorem mccrary_vacuous (values : List ℚ) (threshold : ℚ)
    (h5 : 5 < nearCount values threshold + leftCount values threshold +
      rightCount values threshold) :
    (0 < nearCount values threshold ∧ 0 < leftCount values threshold ∧
        0 < rightCount values threshold →
      (mccrary_density_test values threshold).chi2_statistic = some 0 ∧
        (mccrary_density_test values threshold).p_value = some 1 ∧
        (mccrary_density_test values threshold).z_score = some 0) ∧
      ((nearCount values threshold = 0 ∨ leftCount values threshold = 0 ∨
          rightCount values threshold = 0) →
        (mccrary_density_test values threshold).chi2_statistic = none ∧
          (mccrary_density_test values threshold).p_value = none) ∧
      (nearCount values threshold = 0 →
        (mccrary_density_test values threshold).z_score = none) := by
  refine ⟨?_, ?_, ?_⟩
  · rintro ⟨hn, hl, hr⟩
    have hcs : chisquareObsAsExp [nearCount values threshold, leftCount values threshold,
        rightCount values threshold] = some 0 := by
      unfold chisquareObsAsExp
      rw [if_pos (by simp [hn, hl, hr])]
      norm_num
    simp only [mccrary_density_test]
    rw [if_pos h5, hcs]
    refine ⟨rfl, ?_, ?_⟩
    · simp [chiSq2Sf]
    · rw [if_neg (by omega)]
      simp
  · intro hz
    have hcs : chisquareObsAsExp [nearCount values threshold, leftCount values threshold,
        rightCount values threshold] = none := by
      unfold chisquareObsAsExp
      rw [if_neg]
      simp only [List.all_cons, List.all_nil]
      rcases hz with h | h | h <;> simp [h]
    simp only [mccrary_density_test]
    rw [if_pos h5, hcs]
    exact ⟨rfl, rfl⟩
  · intro hz
    simp only [mccrary_density_test]
    rw [if_pos hz]

theorem nearCount_exRatios : nearCount exRatios 1 = 0 := by
  norm_num [nearCount, exRatios, bandwidth, List.filter]

theorem leftCount_exRatios : leftCount exRatios 1 = 10 := by
  norm_num [leftCount, exRatios, bandwidth, List.filter]

theorem rightCount_exRatios : rightCount exRatios 1 = 0 := by
  norm_num [rightCount, exRatios, bandwidth, List.filter]

/-- Claim C2 counterexample: ten observations all far below the threshold
give more than 5 total observations, yet chi2_statistic and z_score are NaN
(none), not 0: the near and far-right categories are empty and numpy
evaluates their (0 - 0)^2 / 0 terms and the 0 / sqrt 0 z-score to NaN. -/
theorem mccrary_chi2_nan_cex :
    5 < nearCount exRatios 1 + leftCount exRatios 1 + rightCount exRatios 1 ∧
      (mccrary_density_test exRatios 1).chi2_statistic = none ∧
      (mccrary_density_test exRatios 1).z_score = none ∧
      (mccrary_density_test exRatios 1).chi2_statistic ≠ some 0 ∧
      (mccrary_density_test exRatios 1).z_score ≠ some 0 := by
  have h5 : 5 < nearCount exRatios 1 + leftCount exRatios 1 + rightCount exRatios 1 := by
    rw [nearCount_exRatios, leftCount_exRatios, rightCount_exRatios]
    norm_num
  have hchi : (mccrary_density_test exRatios 1).chi2_statistic = none := by
    simp only [mccrary_density_test]
    rw [if_pos h5]
    unfold chisquareObsAsExp
    rw [if_neg]
    simp [nearCount_exRatios]
  have hz : (mccrary_density_test exRatios 1).z_score = none := by
    simp only [mccrary_density_test]
    rw [if_pos nearCount_exRatios]
  refine ⟨h5, hchi, hz, ?_, ?_⟩
  · rw [hchi]
    exact fun h => Option.noConfusion h
  · rw [hz]
    exact fun h => Option.noConfusion h

theorem nearCount_exRatiosPos : nearCount exRatiosPos 1 = 1 := by
  norm_num [nearCount, exRatiosPos, bandwidth, List.filter]

theorem leftCount_exRatiosPos : leftCount exRatiosPos 1 = 3 := by
  norm_num [leftCount, exRatiosPos, bandwidth, List.filter]

theorem rightCount_exRatiosPos : rightCount exRatiosPos 1 = 2 := by
  norm_num [rightCount, exRatiosPos, bandwidth, List.filter]

/-- Witness for claim C2 on an input with all three counts positive. -/
theorem mccrary_vacuous_witness :
    (5 < nearCount exRatiosPos 1 + leftCount exRatiosPos 1 + rightCount exRatiosPos 1) ∧
      ((mccrary_density_test exRatiosPos 1).chi2_statistic = some 0 ∧
        (mccrary_density_test exRatiosPos 1).p_value = some 1 ∧
        (mccrary_density_test exRatiosPos 1).z_score = some 0) :=
  have h5 : 5 < nearCount exRatiosPos 1 + leftCount exRatiosPos 1 +
      rightCount exRatiosPos 1 := by
    rw [nearCount_exRatiosPos, leftCount_exRatiosPos, rightCount_exRatiosPos]
    norm_num
  ⟨h5, (mccrary_vacuous exRatiosPos 1 h5).1
    ⟨by rw [nearCount_exRatiosPos]; norm_num,
      by rw [leftCount_exRatiosPos]; norm_num,
      by rw [rightCount_exRatiosPos]; norm_num⟩⟩

open KvkInsolvency

/-- Claim C10: every record emitted by find_rapid_insolvencies satisfies
1 <= days_to_insolvency <= RAPID_THRESHOLD_DAYS = 1095; and an entity whose
bankruptcy pronouncement falls on or before its earliest registration date
(bankruptcy ordinal at most registration ordinal, so days_to_insolvency is
not strictly positive) is never flagged: its loop body yields no record. -/
theorem rapid_insolvency_days_bounds
    (kvkData : String → Option KvkInfo) (records : List InsRecord) (r : RapidRecord)
    (hr : r ∈ find_rapid_insolvencies kvkData records) :
    (1 ≤ r.days_to_insolvency ∧ r.days_to_insolvency ≤ RAPID_THRESHOLD_DAYS) ∧
      ∀ (rec : InsRecord) (info : KvkInfo) (rd bd : ℕ × ℕ × ℕ),
        kvkData rec.kvk_nr = some info →
        parseYmd8 info.earliest_date = some rd →
        parseIso10 rec.bankruptcy_date = some bd →
        (dateOrdinal bd.1 bd.2.1 bd.2.2 : ℤ) ≤ (dateOrdinal rd.1 rd.2.1 rd.2.2 : ℤ) →
        rapidStep kvkData rec = none := by
  constructor
  · unfold find_rapid_insolvencies at hr
    rw [List.mem_mergeSort] at hr
    obtain ⟨rec, hrec, hstep⟩ := List.mem_filterMap.1 hr
    unfold rapidStep at hstep
    rcases hk : kvkData rec.kvk_nr with _ | info <;> rw [hk] at hstep <;>
      dsimp only at hstep
    · cases hstep
    · split_ifs at hstep with hempty
      rcases hrd : parseYmd8 info.earliest_date with _ | rd <;> rw [hrd] at hstep
      · cases hstep
      · rcases hbd : parseIso10 rec.bankruptcy_date with _ | bd <;> rw [hbd] at hstep <;>
          dsimp only at hstep
        · cases hstep
        · split_ifs at hstep with hdays
          obtain rfl := Option.some_inj.1 hstep
          dsimp only
          omega
  · intro rec info rd bd hk hrd hbd hle
    unfold rapidStep
    rw [hk]
    dsimp only
    split_ifs with hempty
    · rfl
    · rw [hrd, hbd]
      dsimp only
      rw [if_neg (by omega)]

theorem find_rapid_exInsRecord :
    find_rapid_insolvencies exKvkData [exInsRecord] = [exRapidRecord] := by
  unfold find_rapid_insolvencies
  have h1 : List.filterMap (rapidStep exKvkData) [exInsRecord] = [exRapidRecord] := by
    decide
  rw [h1, List.mergeSort_singleton]

/-- Witness for claim C10 on a one-record input: the emitted record has
days_to_insolvency = 365, and the variant record whose bankruptcy date
precedes registration produces no record. -/
theorem rapid_insolvency_days_bounds_witness :
    exRapidRecord ∈ find_rapid_insolvencies exKvkData [exInsRecord] ∧
      (1 ≤ exRapidRecord.days_to_insolvency ∧
        exRapidRecord.days_to_insolvency ≤ RAPID_THRESHOLD_DAYS) ∧
      rapidStep exKvkData exInsRecordEarly = none :=
  have hm : exRapidRecord ∈ find_rapid_insolvencies exKvkData [exInsRecord] := by
    rw [find_rapid_exInsRecord]
    exact List.mem_singleton.2 rfl
  ⟨hm, (rapid_insolvency_days_bounds exKvkData [exInsRecord] exRapidRecord hm).1,
    (rapid_insolvency_days_bounds exKvkData [exInsRecord] exRapidRecord hm).2
      exInsRecordEarly { earliest_date := "20200115", sbi_codes := ["6201"] }
      (2020, 1, 15) (2019, 12, 31) (by decide) (by decide) (by decide) (by decide)⟩

namespace KvkInsolvency

theorem multiset_pair_eq {α : Type} {a b c d : α} :
    ({a, b} : Multiset α) = {c, d} ↔ (a = c ∧ b = d) ∨ (a = d ∧ b = c) := by
  constructor
  · intro h
    rw [Multiset.insert_eq_cons, Multiset.insert_eq_cons] at h
    rcases Multiset.cons_eq_cons.1 h with ⟨h1, h2⟩ | ⟨hne, cs, h1, h2⟩
    · exact Or.inl ⟨h1, by simpa using h2⟩
    · have hcs : cs = 0 := by
        have hcard := congrArg Multiset.card h1
        simpa using hcard
      subst hcs
      simp only [Multiset.singleton_eq_cons_iff] at h1 h2
      exact Or.inr ⟨h2.1.symm, h1.1⟩
  · rintro (⟨rfl, rfl⟩ | ⟨rfl, rfl⟩)
    · rfl
    · exact Multiset.pair_comm a b

theorem two_le_signals_iff (kvkData : String → Option KvkInfo)
    (sim : String → String → ℚ) (e1 e2 : InsRecord) :
    2 ≤ (signalsOf kvkData sim e1 e2).length ↔
      (sharedSbi kvkData e1 e2 ≠ [] ∨ 3/5 ≤ sim e1.name e2.name) := by
  unfold signalsOf
  split_ifs with hs hn hn <;> simp [hs, hn]

theorem mem_of_mem_allPairs {l : List InsRecord} {a b : InsRecord}
    (h : (a, b) ∈ allPairs l) : a ∈ l ∧ b ∈ l := by
  induction l with
  | nil => cases h
  | cons x xs ih =>
      simp only [allPairs, List.mem_append, List.mem_map] at h
      rcases h with ⟨y, hy, heq⟩ | h
      · obtain ⟨rfl, rfl⟩ := Prod.mk.injEq x y a b ▸ heq
        exact ⟨List.mem_cons_self x xs, List.mem_cons_of_mem x hy⟩
      · obtain ⟨ha, hb⟩ := ih h
        exact ⟨List.mem_cons_of_mem x ha, List.mem_cons_of_mem x hb⟩

theorem pair_mem_allPairs {l : List InsRecord} {a b : InsRecord}
    (ha : a ∈ l) (hb : b ∈ l) (hne : a ≠ b) :
    (a, b) ∈ allPairs l ∨ (b, a) ∈ allPairs l := by
  induction l with
  | nil => cases ha
  | cons x xs ih =>
      rcases List.mem_cons.1 ha with rfl | ha0
      · have hb0 : b ∈ xs := by
          rcases List.mem_cons.1 hb with rfl | h
          · exact absurd rfl hne
          · exact h
        left
        simp only [allPairs, List.mem_append, List.mem_map]
        exact Or.inl ⟨b, hb0, rfl⟩
      · rcases List.mem_cons.1 hb with rfl | hb0
        · right
          simp only [allPairs, List.mem_append, List.mem_map]
          exact Or.inl ⟨a, ha0, rfl⟩
        · rcases ih ha0 hb0 with h | h
          · left
            simp only [allPairs, List.mem_append]
            exact Or.inr h
          · right
            simp only [allPairs, List.mem_append]
            exact Or.inr h

theorem nodup_allPairs_keys {l : List InsRecord}
    (h : (l.map InsRecord.insolventienummer).Nodup) :
    ((allPairs l).map (fun q => pairKey q.1 q.2)).Nodup := by
  induction l with
  | nil => simp [allPairs]
  | cons x xs ih =>
      simp only [List.map_cons, List.nodup_cons] at h
      obtain ⟨hx, hxs⟩ := h
      have hinj : ∀ y1 ∈ xs, ∀ y2 ∈ xs,
          y1.insolventienummer = y2.insolventienummer → y1 = y2 :=
        fun y1 h1 y2 h2 he => List.inj_on_of_nodup_map hxs h1 h2 he
      simp only [allPairs, List.map_append, List.map_map]
      rw [List.nodup_append]
      refine ⟨?_, ih hxs, ?_⟩
      · refine List.Nodup.map_on ?_ (List.Nodup.of_map _ hxs)
        intro y1 h1 y2 h2 he
        simp only [Function.comp] at he
        rw [pairKey, pairKey, multiset_pair_eq] at he
        rcases he with ⟨-, hB⟩ | ⟨hA, hB⟩
        · exact hinj y1 h1 y2 h2 hB
        · exact absurd (hA ▸ List.mem_map_of_mem InsRecord.insolventienummer h2) hx
      · intro k hk1 hk2
        simp only [List.mem_map, Function.comp] at hk1 hk2
        obtain ⟨y, hy, hky⟩ := hk1
        obtain ⟨⟨a, b⟩, hab, hkab⟩ := hk2
        have hmem := mem_of_mem_allPairs hab
        have hk : pairKey x y = pairKey a b := by rw [hky, hkab]
        rw [pairKey, pairKey, multiset_pair_eq] at hk
        rcases hk with ⟨hA, -⟩ | ⟨hA, -⟩
        · exact absurd (hA ▸ List.mem_map_of_mem InsRecord.insolventienummer hmem.1) hx
        · exact absurd (hA ▸ List.mem_map_of_mem InsRecord.insolventienummer hmem.2) hx

theorem mem_dedupFirstGo {l : List String} {seen : List String} {a : String} :
    a ∈ dedupFirstGo seen l ↔ a ∈ l ∧ a ∉ seen := by
  induction l generalizing seen with
  | nil => simp [dedupFirstGo]
  | cons x xs ih =>
      by_cases hx : x ∈ seen
      · rw [dedupFirstGo, if_pos hx, ih]
        simp only [List.mem_cons]
        constructor
        · rintro ⟨h1, h2⟩
          exact ⟨Or.inr h1, h2⟩
        · rintro ⟨rfl | h1, h2⟩
          · exact absurd hx h2
          · exact ⟨h1, h2⟩
      · rw [dedupFirstGo, if_neg hx]
        simp only [List.mem_cons, ih]
        constructor
        · rintro (rfl | ⟨h1, h2⟩)
          · exact ⟨Or.inl rfl, hx⟩
          · simp only [List.mem_cons, not_or] at h2
            exact ⟨Or.inr h1, h2.2⟩
        · rintro ⟨rfl | h1, h2⟩
          · exact Or.inl rfl
          · by_cases hax : a = x
            · exact Or.inl hax
            · refine Or.inr ⟨h1, ?_⟩
              simp only [List.mem_cons, not_or]
              exact ⟨hax, h2⟩

theorem nodup_dedupFirstGo (seen : List String) (l : List String) :
    (dedupFirstGo seen l).Nodup := by
  induction l generalizing seen with
  | nil => simp [dedupFirstGo]
  | cons x xs ih =>
      by_cases hx : x ∈ seen
      · rw [dedupFirstGo, if_pos hx]
        exact ih seen
      · rw [dedupFirstGo, if_neg hx]
        refine List.nodup_cons.2 ⟨?_, ih (x :: seen)⟩
        intro hmem
        exact (mem_dedupFirstGo.1 hmem).2 (List.mem_cons_self x seen)

theorem mem_dedupFirst {l : List String} {a : String} :
    a ∈ dedupFirst l ↔ a ∈ l := by
  simp [dedupFirst, mem_dedupFirstGo]

theorem nodup_dedupFirst (l : List String) : (dedupFirst l).Nodup :=
  nodup_dedupFirstGo [] l

theorem mem_bucketOf {records : List InsRecord} {p : String} {r : InsRecord} :
    r ∈ bucketOf records p ↔ r ∈ records ∧ r.postcode = p := by
  simp [bucketOf]

theorem mem_bucketKeys {records : List InsRecord} {p : String} :
    p ∈ bucketKeys records ↔ ∃ r ∈ records, r.postcode ≠ "" ∧ r.postcode = p := by
  rw [bucketKeys, mem_dedupFirst]
  simp only [List.mem_map, List.mem_filter]
  constructor
  · rintro ⟨r, ⟨h1, h2⟩, rfl⟩
    exact ⟨r, h1, by simpa using h2, rfl⟩
  · rintro ⟨r, h1, h2, rfl⟩
    exact ⟨r, ⟨h1, by simpa using h2⟩, rfl⟩

theorem allPairs_short {l : List InsRecord} (h : l.length < 2) : allPairs l = [] := by
  match l with
  | [] => rfl
  | [x] => rfl
  | x :: y :: xs =>
      simp only [List.length_cons] at h
      omega

theorem mem_candidatePairs {records : List InsRecord} {q : InsRecord × InsRecord} :
    q ∈ candidatePairs records ↔
      ∃ p ∈ bucketKeys records, q ∈ allPairs (bucketOf records p) := by
  unfold candidatePairs
  simp only [List.mem_flatMap]
  constructor
  · rintro ⟨p, hp, hq⟩
    by_cases hlen : (bucketOf records p).length < 2
    · rw [if_pos hlen] at hq
      cases hq
    · rw [if_neg hlen] at hq
      exact ⟨p, hp, hq⟩
  · rintro ⟨p, hp, hq⟩
    refine ⟨p, hp, ?_⟩
    by_cases hlen : (bucketOf records p).length < 2
    · rw [allPairs_short hlen] at hq
      cases hq
    · rw [if_neg hlen]
      exact hq

theorem nodup_candidate_keys {records : List InsRecord}
    (hnd : (records.map InsRecord.insolventienummer).Nodup) :
    ((candidatePairs records).map (fun q => pairKey q.1 q.2)).Nodup := by
  unfold candidatePairs
  rw [List.map_flatMap, List.nodup_flatMap]
  constructor
  · intro p hp
    by_cases hlen : (bucketOf records p).length < 2
    · simp [hlen]
    · rw [if_neg hlen]
      apply nodup_allPairs_keys
      have hsub : (bucketOf records p).Sublist records := List.filter_sublist records
      exact List.Nodup.sublist (hsub.map InsRecord.insolventienummer) hnd
  · refine List.Pairwise.imp ?_ (nodup_dedupFirst _)
    intro p q hpq k hk1 hk2
    dsimp only at hk1 hk2
    have hk1' : k ∈ (allPairs (bucketOf records p)).map (fun q => pairKey q.1 q.2) := by
      by_cases hlen : (bucketOf records p).length < 2
      · rw [allPairs_short hlen]
        rw [if_pos hlen] at hk1
        cases hk1
      · rw [if_neg hlen] at hk1
        exact hk1
    have hk2' : k ∈ (allPairs (bucketOf records q)).map (fun q => pairKey q.1 q.2) := by
      by_cases hlen : (bucketOf records q).length < 2
      · rw [allPairs_short hlen]
        rw [if_pos hlen] at hk2
        cases hk2
      · rw [if_neg hlen] at hk2
        exact hk2
    obtain ⟨⟨a1, b1⟩, hm1, hkey1⟩ := List.mem_map.1 hk1'
    obtain ⟨⟨a2, b2⟩, hm2, hkey2⟩ := List.mem_map.1 hk2'
    have hA1 := mem_of_mem_allPairs hm1
    have hA2 := mem_of_mem_allPairs hm2
    have ha1 := mem_bucketOf.1 hA1.1
    have hb1 := mem_bucketOf.1 hA1.2
    have ha2 := mem_bucketOf.1 hA2.1
    have hb2 := mem_bucketOf.1 hA2.2
    have hinj := List.inj_on_of_nodup_map hnd
    have hkk : pairKey a1 b1 = pairKey a2 b2 := by rw [hkey1, hkey2]
    rw [pairKey, pairKey, multiset_pair_eq] at hkk
    rcases hkk with ⟨hA, -⟩ | ⟨hA, -⟩
    · have : a1 = a2 := hinj ha1.1 ha2.1 hA
      exact hpq ((ha1.2.symm.trans (this ▸ ha2.2)))
    · have : a1 = b2 := hinj ha1.1 hb2.1 hA
      exact hpq ((ha1.2.symm.trans (this ▸ hb2.2)))

theorem processPairs_eq (kvkData : String → Option KvkInfo)
    (sim : String → String → ℚ) (seen : List (Multiset String))
    (l : List (InsRecord × InsRecord))
    (hnd : (l.map (fun q => pairKey q.1 q.2)).Nodup)
    (hdisj : ∀ q ∈ l, pairKey q.1 q.2 ∉ seen) :
    processPairs kvkData sim seen l =
      (l.filter (fun q => decide (2 ≤ (signalsOf kvkData sim q.1 q.2).length))).map
        (fun q => mkCluster kvkData sim q.1 q.2) := by
  induction l generalizing seen with
  | nil => rfl
  | cons q rest ih =>
      obtain ⟨e1, e2⟩ := q
      simp only [List.map_cons, List.nodup_cons] at hnd
      obtain ⟨hqk, hrest⟩ := hnd
      rw [processPairs, if_neg (hdisj (e1, e2) (List.mem_cons_self _ _))]
      have hdisj2 : ∀ q ∈ rest, pairKey q.1 q.2 ∉ pairKey e1 e2 :: seen := by
        intro q hq
        simp only [List.mem_cons, not_or]
        constructor
        · intro heq
          exact hqk (heq ▸ List.mem_map_of_mem (fun q => pairKey q.1 q.2) hq)
        · exact hdisj q (List.mem_cons_of_mem _ hq)
      rw [ih _ hrest hdisj2]
      by_cases hsig : 2 ≤ (signalsOf kvkData sim e1 e2).length
      · rw [List.filter_cons_of_pos (by simpa using hsig), List.map_cons]
        simp [hsig]
      · rw [List.filter_cons_of_neg (by simpa using hsig)]
        simp [hsig]

theorem sharedSbi_ne_nil_iff {kvkData : String → Option KvkInfo}
    {e1 e2 : InsRecord} :
    sharedSbi kvkData e1 e2 ≠ [] ↔
      ∃ c, c ∈ sbiOf kvkData e1.kvk_nr ∧ c ∈ sbiOf kvkData e2.kvk_nr := by
  unfold sharedSbi
  rw [Ne, List.filter_eq_nil_iff]
  push_neg
  simp

theorem sharedSbi_ne_nil_comm {kvkData : String → Option KvkInfo}
    {e1 e2 : InsRecord} :
    sharedSbi kvkData e1 e2 ≠ [] ↔ sharedSbi kvkData e2 e1 ≠ [] := by
  rw [sharedSbi_ne_nil_iff, sharedSbi_ne_nil_iff]
  tauto

theorem two_le_length_of_mem {l : List InsRecord} {a b : InsRecord}
    (ha : a ∈ l) (hb : b ∈ l) (hne : a ≠ b) : 2 ≤ l.length := by
  match l with
  | [] => cases ha
  | [x] =>
      simp only [List.mem_singleton] at ha hb
      exact absurd (ha.trans hb.symm) hne
  | x :: y :: xs =>
      simp only [List.length_cons]
      omega

end KvkInsolvency

/-- Claim C8: within a postcode bucket, an unordered pair of distinct
insolvency entities (distinct insolvency numbers, no duplicate numbers in
the input) appears in the phoenix cluster output if and only if at least
two signals hold; the shared postcode itself is one signal, so the pair is
flagged exactly when it additionally shares an SBI code or has name
similarity at least 0.6.  In particular a pair sharing a postcode with
similarity at least 0.6 is flagged even with no shared SBI code, and a pair
sharing only the postcode is never flagged.  The similarity function is
abstract (the source uses the SequenceMatcher ratio of normalized names)
and assumed symmetric, as a string similarity is. -/
theorem phoenix_pair_iff_two_signals
    (kvkData : String → Option KvkInfo) (sim : String → String → ℚ)
    (records : List InsRecord) (e1 e2 : InsRecord)
    (hsym : ∀ a b, sim a b = sim b a)
    (hnd : (records.map KvkInsolvency.InsRecord.insolventienummer).Nodup)
    (h1 : e1 ∈ records) (h2 : e2 ∈ records)
    (hne : e1.insolventienummer ≠ e2.insolventienummer)
    (hpc : e1.postcode = e2.postcode) (hpc0 : e1.postcode ≠ "") :
    (∃ c ∈ find_phoenix_clusters kvkData sim records,
        (c.entity_1_insolvency = e1.insolventienummer ∧
          c.entity_2_insolvency = e2.insolventienummer) ∨
        (c.entity_1_insolvency = e2.insolventienummer ∧
          c.entity_2_insolvency = e1.insolventienummer)) ↔
      (sharedSbi kvkData e1 e2 ≠ [] ∨ 3/5 ≤ sim e1.name e2.name) := by
  have hproc : processPairs kvkData sim [] (candidatePairs records) =
      ((candidatePairs records).filter
        (fun q => decide (2 ≤ (KvkInsolvency.signalsOf kvkData sim q.1 q.2).length))).map
        (fun q => KvkInsolvency.mkCluster kvkData sim q.1 q.2) :=
    KvkInsolvency.processPairs_eq kvkData sim [] (candidatePairs records)
      (KvkInsolvency.nodup_candidate_keys hnd) (fun q _ => List.not_mem_nil _)
  have hinj := List.inj_on_of_nodup_map hnd
  constructor
  · rintro ⟨c, hc, hmatch⟩
    rw [find_phoenix_clusters, List.mem_mergeSort, hproc] at hc
    obtain ⟨⟨a, b⟩, hab, rfl⟩ := List.mem_map.1 hc
    have habf := List.mem_filter.1 hab
    have hsig : 2 ≤ (KvkInsolvency.signalsOf kvkData sim a b).length := by
      simpa using habf.2
    obtain ⟨p, hp, hmem⟩ := KvkInsolvency.mem_candidatePairs.1 habf.1
    have habmem := KvkInsolvency.mem_of_mem_allPairs hmem
    have haR := (KvkInsolvency.mem_bucketOf.1 habmem.1).1
    have hbR := (KvkInsolvency.mem_bucketOf.1 habmem.2).1
    rw [KvkInsolvency.two_le_signals_iff] at hsig
    simp only [KvkInsolvency.mkCluster] at hmatch
    rcases hmatch with ⟨hA, hB⟩ | ⟨hA, hB⟩
    · obtain rfl : a = e1 := hinj haR h1 hA
      obtain rfl : b = e2 := hinj hbR h2 hB
      exact hsig
    · obtain rfl : a = e2 := hinj haR h2 hA
      obtain rfl : b = e1 := hinj hbR h1 hB
      rcases hsig with hs | hs
      · exact Or.inl (KvkInsolvency.sharedSbi_ne_nil_comm.1 hs)
      · rw [hsym] at hs
        exact Or.inr hs
  · intro hsig
    have hne12 : e1 ≠ e2 := fun h => hne (h ▸ rfl)
    have he1b : e1 ∈ bucketOf records e1.postcode :=
      KvkInsolvency.mem_bucketOf.2 ⟨h1, rfl⟩
    have he2b : e2 ∈ bucketOf records e1.postcode :=
      KvkInsolvency.mem_bucketOf.2 ⟨h2, hpc.symm⟩
    have hp : e1.postcode ∈ bucketKeys records :=
      KvkInsolvency.mem_bucketKeys.2 ⟨e1, h1, hpc0, rfl⟩
    have hsig21 : 2 ≤ (KvkInsolvency.signalsOf kvkData sim e2 e1).length := by
      rw [KvkInsolvency.two_le_signals_iff]
      rcases hsig with hs | hs
      · exact Or.inl (KvkInsolvency.sharedSbi_ne_nil_comm.1 hs)
      · rw [hsym e2.name e1.name]
        exact Or.inr hs
    have hsig12 : 2 ≤ (KvkInsolvency.signalsOf kvkData sim e1 e2).length := by
      rw [KvkInsolvency.two_le_signals_iff]
      exact hsig
    rcases KvkInsolvency.pair_mem_allPairs he1b he2b hne12 with hmem | hmem
    · refine ⟨KvkInsolvency.mkCluster kvkData sim e1 e2, ?_, Or.inl ⟨rfl, rfl⟩⟩
      rw [find_phoenix_clusters, List.mem_mergeSort, hproc]
      refine List.mem_map.2 ⟨(e1, e2), List.mem_filter.2 ⟨?_, by simpa using hsig12⟩, rfl⟩
      exact KvkInsolvency.mem_candidatePairs.2 ⟨e1.postcode, hp, hmem⟩
    · refine ⟨KvkInsolvency.mkCluster kvkData sim e2 e1, ?_, Or.inr ⟨rfl, rfl⟩⟩
      rw [find_phoenix_clusters, List.mem_mergeSort, hproc]
      refine List.mem_map.2 ⟨(e2, e1), List.mem_filter.2 ⟨?_, by simpa using hsig21⟩, rfl⟩
      exact KvkInsolvency.mem_candidatePairs.2 ⟨e1.postcode, hp, hmem⟩

/-- Witness for claim C8: two entities sharing a postcode, with constant
similarity 0.7 and no SBI codes at all (so no shared SBI code). -/
theorem phoenix_pair_iff_two_signals_witness :
    ([exPhoenixA, exPhoenixB].map KvkInsolvency.InsRecord.insolventienummer).Nodup ∧
      exPhoenixA.insolventienummer ≠ exPhoenixB.insolventienummer ∧
      exPhoenixA.postcode = exPhoenixB.postcode ∧ exPhoenixA.postcode ≠ "" ∧
      ((∃ c ∈ find_phoenix_clusters exNoKvk exSimConst [exPhoenixA, exPhoenixB],
          (c.entity_1_insolvency = exPhoenixA.insolventienummer ∧
            c.entity_2_insolvency = exPhoenixB.insolventienummer) ∨
          (c.entity_1_insolvency = exPhoenixB.insolventienummer ∧
            c.entity_2_insolvency = exPhoenixA.insolventienummer)) ↔
        (sharedSbi exNoKvk exPhoenixA exPhoenixB ≠ [] ∨
          3/5 ≤ exSimConst exPhoenixA.name exPhoenixB.name)) :=
  ⟨by decide, by decide, rfl, by decide,
    phoenix_pair_iff_two_signals exNoKvk exSimConst [exPhoenixA, exPhoenixB]
      exPhoenixA exPhoenixB (fun a b => rfl) (by decide)
      (by decide) (by decide) (by decide) rfl (by decide)⟩
